import Mathlib

/-!
Verification of the trading-bot engine in src/bot.py.

The embedding models Python floats as exact rationals.  The pieces embedded
from the source are:

* the rolling candle window kept by StrategyEngine (a pandas DataFrame capped
  to the last 300 rows by tail(300)), together with the indicator columns that
  pandas_ta appends to it with append=True;
* StrategyEngine.analyze, which recomputes each indicator column whenever the
  window is long enough, and reads the last (and second to last) cells with
  per-column defaults (RSI 50, everything else 0) when a column is absent;
* process_market_update, which logs one price row and one indicator row on
  every cycle, returns early when the snapshot is not ready, and otherwise
  runs the BUY/SELL state machine over the Portfolio row.

The numeric indicator formulas themselves live in the pandas_ta library, which
is not part of this repository; they are modelled from the spec (section 4.1)
and marked as such below.  The last_updated timestamp column and the database
session plumbing are not modelled; persisted rows are returned as values.
-/

/-- One closed candle as stored by StrategyEngine.update (bot.py lines 89-96):
timestamp plus the five OHLCV floats. -/
structure Candle where
  ts : Nat
  open_ : ℚ
  high : ℚ
  low : ℚ
  close : ℚ
  volume : ℚ
deriving DecidableEq

/-- The StrategyEngine DataFrame: the retained candle rows plus one flag per
indicator column recording whether pandas_ta has appended that column.  A
column exists exactly when some earlier analyze call saw enough rows for it
(bot.py lines 105-108); its cells are recomputed from the retained closes on
every analyze call, so reads always see freshly recomputed values. -/
structure DF where
  rows : List Candle
  has_rsi : Bool
  has_sma : Bool
  has_ema : Bool
  has_macd : Bool
deriving DecidableEq

/-- The DataFrame a fresh StrategyEngine starts with (bot.py line 87). -/
def emptyDF : DF := ⟨[], false, false, false, false⟩

/-- StrategyEngine.update (bot.py line 96): append the candle and keep only
the last 300 rows, pandas tail(300). -/
def DF.update (df : DF) (c : Candle) : DF :=
  { df with rows := (df.rows ++ [c]).drop ((df.rows ++ [c]).length - 300) }

/-- Differences between consecutive closes, the deltas RSI is built from. -/
def deltas (l : List ℚ) : List ℚ :=
  List.zipWith (fun a b => b - a) l l.tail

/-- Modelled from the spec (pandas_ta internals are not in this repository):
Wilder smoothing, recursively averaging with weight 1/14 per step. -/
def wilderSmooth (seed : ℚ) (xs : List ℚ) : ℚ :=
  xs.foldl (fun a x => (a * 13 + x) / 14) seed

/-- Modelled from the spec: RSI(14) by Wilder smoothing — seed average gain
and loss over the first 14 deltas, smooth the rest, RSI = 100 - 100/(1+RS)
with RS = avg gain / avg loss, and RSI = 100 when the average loss is 0. -/
def rsiLast (closes : List ℚ) : ℚ :=
  let ds := deltas closes
  let gains := ds.map (fun d => if d > 0 then d else 0)
  let losses := ds.map (fun d => if d < 0 then -d else 0)
  let avgGain := wilderSmooth ((gains.take 14).sum / 14) (gains.drop 14)
  let avgLoss := wilderSmooth ((losses.take 14).sum / 14) (losses.drop 14)
  if avgLoss = 0 then 100 else 100 - 100 / (1 + avgGain / avgLoss)

/-- Modelled from the spec: SMA(20), the arithmetic mean of the last 20
closes. -/
def smaLast (closes : List ℚ) : ℚ :=
  (closes.drop (closes.length - 20)).sum / 20

/-- Modelled from the spec: exponential moving average with smoothing factor
2/(n+1), seeded by the first available value and carried over the window. -/
def emaLast (n : Nat) (closes : List ℚ) : ℚ :=
  match closes with
  | [] => 0
  | x :: xs => xs.foldl (fun a y => a + (2 / ((n : ℚ) + 1)) * (y - a)) x

/-- Modelled from the spec: the MACD line, EMA(12) - EMA(26) of the closes,
evaluated causally at every row of the window. -/
def macdLine (closes : List ℚ) : List ℚ :=
  (List.range closes.length).map
    (fun i => emaLast 12 (closes.take (i + 1)) - emaLast 26 (closes.take (i + 1)))

/-- Modelled from the spec: the latest MACD histogram value, MACD line minus
its EMA(9) signal line. -/
def macdhLast (closes : List ℚ) : ℚ :=
  let line := macdLine closes
  line.getLastD 0 - emaLast 9 line

/-- The snapshot dict returned by StrategyEngine.analyze
(bot.py lines 122-130). -/
structure Signals where
  ready : Bool
  price : ℚ
  rsi : ℚ
  sma_20 : ℚ
  ema_200 : ℚ
  macd_h : ℚ
  macd_h_prev : ℚ
deriving DecidableEq

/-- The column flags after one analyze call: a column is (still) present once
the window has ever reached that indicator's minimum length
(bot.py lines 105-108). -/
def DF.refreshFlags (df : DF) : DF :=
  { df with
    has_rsi := df.has_rsi || decide (14 ≤ df.rows.length)
    has_sma := df.has_sma || decide (20 ≤ df.rows.length)
    has_ema := df.has_ema || decide (200 ≤ df.rows.length)
    has_macd := df.has_macd || decide (35 ≤ df.rows.length) }

/-- The snapshot read off the last two rows after the columns were
recomputed: a present column yields its freshly recomputed cell, an absent
column yields the .get default — 50 for RSI and 0 for the others
(bot.py lines 110-130).  The previous row falls back to the current row when
only one row is held (bot.py line 111). -/
def DF.signalsOf (df : DF) : Signals :=
  let n := df.rows.length
  let closes := df.rows.map Candle.close
  { ready := decide (200 ≤ n)
    price := closes.getLastD 0
    rsi := if df.has_rsi || decide (14 ≤ n) then rsiLast closes else 50
    sma_20 := if df.has_sma || decide (20 ≤ n) then smaLast closes else 0
    ema_200 := if df.has_ema || decide (200 ≤ n) then emaLast 200 closes else 0
    macd_h := if df.has_macd || decide (35 ≤ n) then macdhLast closes else 0
    macd_h_prev :=
      if df.has_macd || decide (35 ≤ n) then
        (if 1 < n then macdhLast (closes.take (n - 1)) else macdhLast closes)
      else 0 }

/-- StrategyEngine.analyze (bot.py lines 98-130): None on an empty window,
otherwise recompute the indicator columns (mutating the DataFrame) and return
the snapshot, whose ready flag is len >= 200. -/
def DF.analyze (df : DF) : DF × Option Signals :=
  if df.rows.isEmpty then (df, none)
  else (df.refreshFlags, some df.signalsOf)

/-- The Portfolio row (bot.py lines 56-64, last_updated omitted). -/
structure Portfolio where
  usd_balance : ℚ
  btc_balance : ℚ
  in_position : Bool
  entry_price : ℚ
  highest_price : ℚ
deriving DecidableEq

/-- The Portfolio created at startup (bot.py lines 59-63 and 74):
10000 USD, no BTC, flat. -/
def initialPortfolio : Portfolio := ⟨10000, 0, false, 0, 0⟩

/-- A row of the trades table (bot.py lines 30-40). -/
structure Trade where
  symbol : String
  side : String
  price : ℚ
  quantity : ℚ
  usd_balance : ℚ
  btc_balance : ℚ
  reason : String
deriving DecidableEq

/-- A row of the indicators table (bot.py lines 48-54). -/
structure IndicatorLog where
  rsi : ℚ
  sma_20 : ℚ
  ema_200 : ℚ
deriving DecidableEq

/-- The high-water update done every in-position cycle
(bot.py lines 172-173). -/
def updatedHighest (p : Portfolio) (price : ℚ) : ℚ :=
  if price > p.highest_price then price else p.highest_price

/-- The trade logic of process_market_update once the snapshot is ready
(bot.py lines 150-201): the BUY branch commits 99% of cash, the in-position
branch updates the high-water mark and checks the three exit conditions in
priority order, and the Trade row is built from the already mutated
portfolio, so a SELL records quantity 0 and btc_balance 0. -/
def decideTrade (s : Signals) (p : Portfolio) : Portfolio × List Trade :=
  let price := s.price
  if p.in_position = false then
    if price > s.ema_200 ∧ s.rsi < 40 ∧ s.macd_h > s.macd_h_prev then
      let qty := p.usd_balance * (99 / 100) / price
      let p1 : Portfolio := ⟨p.usd_balance - qty * price, qty, true, price, price⟩
      (p1, [⟨"BTC/USD", "BUY", price, p1.btc_balance, p1.usd_balance,
             p1.btc_balance, "Uptrend RSI Pullback"⟩])
    else (p, [])
  else
    let highest1 := updatedHighest p price
    let pnl := (price - p.entry_price) / p.entry_price
    let drawdown := (highest1 - price) / highest1
    let reasonOpt : Option String :=
      if s.rsi > 70 then some "RSI Overbought"
      else if drawdown > 3 / 200 then some "Trailing Stop (1.5%)"
      else if pnl < -(1 / 50) then some "Stop Loss (-2%)"
      else none
    match reasonOpt with
    | some reason =>
        let p1 : Portfolio :=
          ⟨p.usd_balance + p.btc_balance * price, 0, false, p.entry_price, highest1⟩
        (p1, [⟨"BTC/USD", "SELL", price, 0, p1.usd_balance, 0, reason⟩])
    | none => ({ p with highest_price := highest1 }, [])

/-- The observable outcome of one process_market_update call: the rows added
to the prices and indicators tables, the resulting Portfolio, and the Trade
rows appended (empty or a singleton). -/
structure CycleResult where
  priceLogs : List ℚ
  indLogs : List IndicatorLog
  portfolio : Portfolio
  trades : List Trade

/-- process_market_update (bot.py lines 132-207): one price row and one
indicator row are inserted on every call; when the snapshot is not ready the
function commits those rows and returns with the portfolio untouched,
otherwise the trade logic runs. -/
def process_market_update (s : Signals) (p : Portfolio) : CycleResult :=
  let u := if s.ready = true then decideTrade s p else (p, [])
  ⟨[s.price], [⟨s.rsi, s.sma_20, s.ema_200⟩], u.1, u.2⟩

/-- Folding a sequence of decision cycles over a portfolio. -/
def runCycles (l : List Signals) (p : Portfolio) : Portfolio :=
  l.foldl (fun q s => (process_market_update s q).portfolio) p

/-- Column flags never outrun the window: a column is only present once the
window reached that indicator's minimum length.  Every reachable DataFrame
satisfies this. -/
def WF (df : DF) : Prop :=
  (df.has_rsi = true → 14 ≤ df.rows.length) ∧
  (df.has_sma = true → 20 ≤ df.rows.length) ∧
  (df.has_ema = true → 200 ≤ df.rows.length) ∧
  (df.has_macd = true → 35 ≤ df.rows.length)

/-- The portfolio invariant: positive cash, nonnegative BTC, the position
flag tracks the BTC balance, and while in position the entry price is
positive and below the high-water mark. -/
def PortfolioInv (p : Portfolio) : Prop :=
  0 < p.usd_balance ∧ 0 ≤ p.btc_balance ∧
  (p.in_position = true ↔ 0 < p.btc_balance) ∧
  (p.in_position = true → 0 < p.entry_price ∧ p.entry_price ≤ p.highest_price)

/-! ### Projection lemmas for one decision cycle -/

lemma process_priceLogs (s : Signals) (p : Portfolio) :
    (process_market_update s p).priceLogs = [s.price] := rfl

lemma process_indLogs (s : Signals) (p : Portfolio) :
    (process_market_update s p).indLogs = [⟨s.rsi, s.sma_20, s.ema_200⟩] := rfl

lemma process_portfolio (s : Signals) (p : Portfolio) :
    (process_market_update s p).portfolio =
      if s.ready = true then (decideTrade s p).1 else p := by
  by_cases h : s.ready = true <;> simp [process_market_update, h]

lemma process_trades (s : Signals) (p : Portfolio) :
    (process_market_update s p).trades =
      if s.ready = true then (decideTrade s p).2 else [] := by
  by_cases h : s.ready = true <;> simp [process_market_update, h]

/-! ### Branch lemmas for the trade logic -/

lemma decideTrade_buy (s : Signals) (p : Portfolio) (hflat : p.in_position = false)
    (h1 : s.price > s.ema_200) (h2 : s.rsi < 40) (h3 : s.macd_h > s.macd_h_prev) :
    decideTrade s p =
      (⟨p.usd_balance - p.usd_balance * (99 / 100) / s.price * s.price,
        p.usd_balance * (99 / 100) / s.price, true, s.price, s.price⟩,
       [⟨"BTC/USD", "BUY", s.price, p.usd_balance * (99 / 100) / s.price,
         p.usd_balance - p.usd_balance * (99 / 100) / s.price * s.price,
         p.usd_balance * (99 / 100) / s.price, "Uptrend RSI Pullback"⟩]) := by
  simp [decideTrade, hflat, h1, h2, h3]

lemma decideTrade_noBuy (s : Signals) (p : Portfolio) (hflat : p.in_position = false)
    (hc : ¬(s.price > s.ema_200 ∧ s.rsi < 40 ∧ s.macd_h > s.macd_h_prev)) :
    decideTrade s p = (p, []) := by
  simp [decideTrade, hflat, hc]

lemma decideTrade_sell_rsi (s : Signals) (p : Portfolio) (hlong : p.in_position = true)
    (h70 : s.rsi > 70) :
    decideTrade s p =
      (⟨p.usd_balance + p.btc_balance * s.price, 0, false, p.entry_price,
        updatedHighest p s.price⟩,
       [⟨"BTC/USD", "SELL", s.price, 0, p.usd_balance + p.btc_balance * s.price, 0,
         "RSI Overbought"⟩]) := by
  simp [decideTrade, hlong, h70]

lemma decideTrade_sell_trailing (s : Signals) (p : Portfolio) (hlong : p.in_position = true)
    (h70 : ¬(s.rsi > 70))
    (hdd : (updatedHighest p s.price - s.price) / updatedHighest p s.price > 3 / 200) :
    decideTrade s p =
      (⟨p.usd_balance + p.btc_balance * s.price, 0, false, p.entry_price,
        updatedHighest p s.price⟩,
       [⟨"BTC/USD", "SELL", s.price, 0, p.usd_balance + p.btc_balance * s.price, 0,
         "Trailing Stop (1.5%)"⟩]) := by
  simp [decideTrade, hlong, h70, hdd]

lemma decideTrade_sell_stop (s : Signals) (p : Portfolio) (hlong : p.in_position = true)
    (h70 : ¬(s.rsi > 70))
    (hdd : ¬((updatedHighest p s.price - s.price) / updatedHighest p s.price > 3 / 200))
    (hpnl : (s.price - p.entry_price) / p.entry_price < -(1 / 50)) :
    decideTrade s p =
      (⟨p.usd_balance + p.btc_balance * s.price, 0, false, p.entry_price,
        updatedHighest p s.price⟩,
       [⟨"BTC/USD", "SELL", s.price, 0, p.usd_balance + p.btc_balance * s.price, 0,
         "Stop Loss (-2%)"⟩]) := by
  simp only [decideTrade, hlong]
  rw [if_neg (by decide : ¬(true = false)), if_neg h70, if_neg hdd, if_pos hpnl]

lemma decideTrade_hold (s : Signals) (p : Portfolio) (hlong : p.in_position = true)
    (h70 : ¬(s.rsi > 70))
    (hdd : ¬((updatedHighest p s.price - s.price) / updatedHighest p s.price > 3 / 200))
    (hpnl : ¬((s.price - p.entry_price) / p.entry_price < -(1 / 50))) :
    decideTrade s p =
      (⟨p.usd_balance, p.btc_balance, true, p.entry_price, updatedHighest p s.price⟩, []) := by
  simp only [decideTrade, hlong]
  rw [if_neg (by decide : ¬(true = false)), if_neg h70, if_neg hdd, if_neg hpnl]

/-! ### C1 — hard stop loss at entry 100, price 97.5, RSI 50 -/

/-- Concrete LONG portfolio for C1: entry 100, high-water mark 100. -/
def c1port : Portfolio := ⟨500, 2, true, 100, 100⟩

/-- Concrete ready snapshot for C1: price 97.5, RSI 50. -/
def c1sig : Signals := ⟨true, 195 / 2, 50, 0, 0, 0, 0⟩

/-- C1, counterexample: at entry 100, highest 100, price 97.5, RSI 50 the
code does sell, but the reason is the trailing-stop string, not
"Hard Stop Loss" as the claim states: the drawdown from the high-water mark
is 2.5 percent, above the 1.5 percent trailing threshold, so the
trailing-stop branch matches before the hard stop-loss branch is reached. -/
theorem c1_counterexample :
    (process_market_update c1sig c1port).trades.map Trade.reason =
      ["Trailing Stop (1.5%)"] ∧
    ("Trailing Stop (1.5%)" : String) ≠ "Hard Stop Loss" := by
  have h70 : ¬(c1sig.rsi > 70) := by norm_num [c1sig]
  have hdd : (updatedHighest c1port c1sig.price - c1sig.price) /
      updatedHighest c1port c1sig.price > 3 / 200 := by
    norm_num [updatedHighest, c1port, c1sig]
  have hr : c1sig.ready = true := rfl
  constructor
  · rw [process_trades, if_pos hr, decideTrade_sell_trailing c1sig c1port rfl h70 hdd]
    rfl
  · decide

/-- C1, amended: for every LONG portfolio with entry_price 100 (hence
highest_price at least 100), a ready cycle at price 97.5 with RSI 50
produces a SELL — but its reason is "Trailing Stop (1.5%)": the RSI
overbought check is attempted first and does not match, and the decision is
then caught by the trailing-stop branch (drawdown at least 2.5 percent,
above 1.5 percent), so the hard stop-loss branch is never reached. -/
theorem c1_trailing_preempts_hard_stop (p : Portfolio) (s : Signals)
    (hlong : p.in_position = true) (_hentry : p.entry_price = 100)
    (hhigh : 100 ≤ p.highest_price) (hready : s.ready = true)
    (hprice : s.price = 195 / 2) (hrsi : s.rsi = 50) :
    (process_market_update s p).trades.map Trade.side = ["SELL"] ∧
    (process_market_update s p).trades.map Trade.reason = ["Trailing Stop (1.5%)"] := by
  have h70 : ¬(s.rsi > 70) := by rw [hrsi]; norm_num
  have hhpos : (0 : ℚ) < p.highest_price := lt_of_lt_of_le (by norm_num) hhigh
  have hup : updatedHighest p s.price = p.highest_price := by
    unfold updatedHighest
    rw [if_neg]
    rw [hprice]
    exact not_lt.mpr (le_trans (by norm_num) hhigh)
  have hdd : (updatedHighest p s.price - s.price) / updatedHighest p s.price > 3 / 200 := by
    rw [hup, hprice, gt_iff_lt, lt_div_iff₀ hhpos]
    linarith
  rw [process_trades, if_pos hready, decideTrade_sell_trailing s p hlong h70 hdd]
  constructor <;> rfl

/-- C1, witness for the amended theorem at the concrete inputs above. -/
theorem c1_witness :
    (process_market_update c1sig c1port).trades.map Trade.side = ["SELL"] ∧
    (process_market_update c1sig c1port).trades.map Trade.reason =
      ["Trailing Stop (1.5%)"] :=
  c1_trailing_preempts_hard_stop c1port c1sig rfl rfl (by norm_num [c1port]) rfl rfl rfl

/-! ### C2 — trailing stop at entry 100, highest 110, price 108.3 -/

/-- Concrete LONG portfolio for C2: entry 100, high-water mark 110. -/
def c2port : Portfolio := ⟨500, 2, true, 100, 110⟩

/-- Concrete ready snapshot for C2: price 108.3, RSI 50. -/
def c2sig : Signals := ⟨true, 1083 / 10, 50, 0, 0, 0, 0⟩

/-- C2, counterexample: the sale does happen and the balances move as the
claim says, but the reason string the code stores is "Trailing Stop (1.5%)",
not "Trailing Stop Triggered". -/
theorem c2_counterexample :
    (process_market_update c2sig c2port).trades.map Trade.reason =
      ["Trailing Stop (1.5%)"] ∧
    ("Trailing Stop (1.5%)" : String) ≠ "Trailing Stop Triggered" := by
  have h70 : ¬(c2sig.rsi > 70) := by norm_num [c2sig]
  have hdd : (updatedHighest c2port c2sig.price - c2sig.price) /
      updatedHighest c2port c2sig.price > 3 / 200 := by
    norm_num [updatedHighest, c2port, c2sig]
  have hr : c2sig.ready = true := rfl
  constructor
  · rw [process_trades, if_pos hr, decideTrade_sell_trailing c2sig c2port rfl h70 hdd]
    rfl
  · decide

/-- C2, amended: for every LONG portfolio with entry_price 100 and
highest_price_since_entry 110, a ready cycle at price 108.3 with RSI at most
70 sells because the drawdown (110 - 108.3)/110 exceeds 0.015; the reason
stored is the code string "Trailing Stop (1.5%)" (the spec wording
"Trailing Stop Triggered" does not occur in the code), cash_balance is
credited by asset_balance * 108.3, asset_balance becomes 0 and in_position
becomes false. -/
theorem c2_trailing_stop (p : Portfolio) (s : Signals)
    (hlong : p.in_position = true) (_hentry : p.entry_price = 100)
    (hhigh : p.highest_price = 110) (hready : s.ready = true)
    (hprice : s.price = 1083 / 10) (hrsi : s.rsi ≤ 70) :
    (process_market_update s p).trades =
      [⟨"BTC/USD", "SELL", s.price, 0,
        p.usd_balance + p.btc_balance * (1083 / 10), 0, "Trailing Stop (1.5%)"⟩] ∧
    (process_market_update s p).portfolio.usd_balance =
      p.usd_balance + p.btc_balance * (1083 / 10) ∧
    (process_market_update s p).portfolio.btc_balance = 0 ∧
    (process_market_update s p).portfolio.in_position = false := by
  have h70 : ¬(s.rsi > 70) := not_lt.mpr hrsi
  have hup : updatedHighest p s.price = 110 := by
    unfold updatedHighest
    rw [hhigh, hprice, if_neg (by norm_num)]
  have hdd : (updatedHighest p s.price - s.price) / updatedHighest p s.price > 3 / 200 := by
    rw [hup, hprice]
    norm_num
  rw [process_trades, process_portfolio, if_pos hready, if_pos hready,
    decideTrade_sell_trailing s p hlong h70 hdd, hprice]
  exact ⟨rfl, rfl, rfl, rfl⟩

/-- C2, witness for the amended theorem at the concrete inputs above. -/
theorem c2_witness :
    (process_market_update c2sig c2port).trades =
      [⟨"BTC/USD", "SELL", c2sig.price, 0,
        c2port.usd_balance + c2port.btc_balance * (1083 / 10), 0,
        "Trailing Stop (1.5%)"⟩] ∧
    (process_market_update c2sig c2port).portfolio.usd_balance =
      c2port.usd_balance + c2port.btc_balance * (1083 / 10) ∧
    (process_market_update c2sig c2port).portfolio.btc_balance = 0 ∧
    (process_market_update c2sig c2port).portfolio.in_position = false :=
  c2_trailing_stop c2port c2sig rfl rfl rfl rfl rfl (by norm_num [c2sig])

/-! ### C3 — FLAT entry rule -/

/-- C3: from a FLAT portfolio on a ready cycle, the three entry conditions
(price above EMA200, RSI below 40, MACD histogram rising) produce exactly
one BUY with reason "Uptrend RSI Pullback"; the committed fraction of cash
is 99 percent (within the specified 98 to 99 percent), the asset balance
becomes that fraction of cash divided by price, cash is reduced by the
bought quantity times price, in_position becomes true and both entry_price
and highest_price are set to the current price; if any condition fails no
trade is emitted. -/
theorem c3_buy_rule (p : Portfolio) (s : Signals)
    (hflat : p.in_position = false) (hready : s.ready = true) :
    ((s.price > s.ema_200 ∧ s.rsi < 40 ∧ s.macd_h > s.macd_h_prev) →
      (∃ t, (process_market_update s p).trades = [t] ∧ t.side = "BUY" ∧
        t.reason = "Uptrend RSI Pullback") ∧
      (∃ f, 98 / 100 ≤ f ∧ f ≤ 99 / 100 ∧
        (process_market_update s p).portfolio.btc_balance = f * p.usd_balance / s.price ∧
        (process_market_update s p).portfolio.usd_balance =
          p.usd_balance - (process_market_update s p).portfolio.btc_balance * s.price) ∧
      (process_market_update s p).portfolio.in_position = true ∧
      (process_market_update s p).portfolio.entry_price = s.price ∧
      (process_market_update s p).portfolio.highest_price = s.price) ∧
    (¬(s.price > s.ema_200 ∧ s.rsi < 40 ∧ s.macd_h > s.macd_h_prev) →
      (process_market_update s p).trades = []) := by
  constructor
  · intro hc
    rw [process_trades, process_portfolio, if_pos hready, if_pos hready,
      decideTrade_buy s p hflat hc.1 hc.2.1 hc.2.2]
    refine ⟨⟨_, rfl, rfl, rfl⟩, ⟨99 / 100, by norm_num, le_refl _, ?_, rfl⟩, rfl, rfl, rfl⟩
    show p.usd_balance * (99 / 100) / s.price = 99 / 100 * p.usd_balance / s.price
    ring
  · intro hc
    rw [process_trades, if_pos hready, decideTrade_noBuy s p hflat hc]

/-- Concrete FLAT snapshot for the C3 witness: price 10 above EMA 5, RSI 30,
histogram rising. -/
def c3sig : Signals := ⟨true, 10, 30, 0, 5, 2, 1⟩

/-- C3, witness at the initial portfolio and the snapshot above. -/
theorem c3_witness :
    ((c3sig.price > c3sig.ema_200 ∧ c3sig.rsi < 40 ∧ c3sig.macd_h > c3sig.macd_h_prev) →
      (∃ t, (process_market_update c3sig initialPortfolio).trades = [t] ∧ t.side = "BUY" ∧
        t.reason = "Uptrend RSI Pullback") ∧
      (∃ f, 98 / 100 ≤ f ∧ f ≤ 99 / 100 ∧
        (process_market_update c3sig initialPortfolio).portfolio.btc_balance =
          f * initialPortfolio.usd_balance / c3sig.price ∧
        (process_market_update c3sig initialPortfolio).portfolio.usd_balance =
          initialPortfolio.usd_balance -
            (process_market_update c3sig initialPortfolio).portfolio.btc_balance *
              c3sig.price) ∧
      (process_market_update c3sig initialPortfolio).portfolio.in_position = true ∧
      (process_market_update c3sig initialPortfolio).portfolio.entry_price = c3sig.price ∧
      (process_market_update c3sig initialPortfolio).portfolio.highest_price = c3sig.price) ∧
    (¬(c3sig.price > c3sig.ema_200 ∧ c3sig.rsi < 40 ∧ c3sig.macd_h > c3sig.macd_h_prev) →
      (process_market_update c3sig initialPortfolio).trades = []) :=
  c3_buy_rule initialPortfolio c3sig rfl rfl

/-! ### C4 — portfolio invariants along every run -/

lemma portfolioInv_initial : PortfolioInv initialPortfolio := by
  refine ⟨by norm_num [initialPortfolio], le_refl 0, ?_, ?_⟩
  · simp [initialPortfolio]
  · intro h
    simp [initialPortfolio] at h

lemma updatedHighest_le (p : Portfolio) (price : ℚ) :
    p.highest_price ≤ updatedHighest p price := by
  unfold updatedHighest
  by_cases h : price > p.highest_price
  · rw [if_pos h]
    exact le_of_lt h
  · rw [if_neg h]

lemma portfolioInv_decideTrade (s : Signals) (p : Portfolio) (hpr : 0 < s.price)
    (h : PortfolioInv p) : PortfolioInv (decideTrade s p).1 := by
  obtain ⟨hu, hb, hiff, hent⟩ := h
  cases hpos : p.in_position with
  | false =>
    by_cases hc : s.price > s.ema_200 ∧ s.rsi < 40 ∧ s.macd_h > s.macd_h_prev
    · rw [decideTrade_buy s p hpos hc.1 hc.2.1 hc.2.2]
      have hq : 0 < p.usd_balance * (99 / 100) / s.price :=
        div_pos (mul_pos hu (by norm_num)) hpr
      have hcancel : p.usd_balance * (99 / 100) / s.price * s.price =
          p.usd_balance * (99 / 100) := div_mul_cancel₀ _ (ne_of_gt hpr)
      refine ⟨?_, le_of_lt hq, ?_, fun _ => ⟨hpr, le_refl _⟩⟩
      · show 0 < p.usd_balance - p.usd_balance * (99 / 100) / s.price * s.price
        rw [hcancel]
        linarith
      · simpa using hq
    · rw [decideTrade_noBuy s p hpos hc]
      exact ⟨hu, hb, hiff, hent⟩
  | true =>
    have hep := hent hpos
    have hhw : p.entry_price ≤ updatedHighest p s.price :=
      le_trans hep.2 (updatedHighest_le p s.price)
    have hsold : PortfolioInv
        ⟨p.usd_balance + p.btc_balance * s.price, 0, false, p.entry_price,
          updatedHighest p s.price⟩ := by
      refine ⟨?_, le_refl 0, ?_, ?_⟩
      · have : 0 ≤ p.btc_balance * s.price := mul_nonneg hb (le_of_lt hpr)
        show 0 < p.usd_balance + p.btc_balance * s.price
        linarith
      · simp
      · intro hfalse
        simp at hfalse
    by_cases h70 : s.rsi > 70
    · rw [decideTrade_sell_rsi s p hpos h70]
      exact hsold
    · by_cases hdd : (updatedHighest p s.price - s.price) / updatedHighest p s.price > 3 / 200
      · rw [decideTrade_sell_trailing s p hpos h70 hdd]
        exact hsold
      · by_cases hpnl : (s.price - p.entry_price) / p.entry_price < -(1 / 50)
        · rw [decideTrade_sell_stop s p hpos h70 hdd hpnl]
          exact hsold
        · rw [decideTrade_hold s p hpos h70 hdd hpnl]
          refine ⟨hu, hb, ?_, fun _ => ⟨hep.1, hhw⟩⟩
          show true = true ↔ 0 < p.btc_balance
          rw [hpos] at hiff
          exact hiff

lemma portfolioInv_step (s : Signals) (p : Portfolio) (hpr : 0 < s.price)
    (h : PortfolioInv p) : PortfolioInv (process_market_update s p).portfolio := by
  rw [process_portfolio]
  by_cases hr : s.ready = true
  · rw [if_pos hr]
    exact portfolioInv_decideTrade s p hpr h
  · rw [if_neg hr]
    exact h

lemma highest_mono_step (s : Signals) (p : Portfolio) (hlong : p.in_position = true) :
    p.highest_price ≤ (process_market_update s p).portfolio.highest_price := by
  rw [process_portfolio]
  by_cases hr : s.ready = true
  · rw [if_pos hr]
    by_cases h70 : s.rsi > 70
    · rw [decideTrade_sell_rsi s p hlong h70]
      exact updatedHighest_le p s.price
    · by_cases hdd : (updatedHighest p s.price - s.price) / updatedHighest p s.price > 3 / 200
      · rw [decideTrade_sell_trailing s p hlong h70 hdd]
        exact updatedHighest_le p s.price
      · by_cases hpnl : (s.price - p.entry_price) / p.entry_price < -(1 / 50)
        · rw [decideTrade_sell_stop s p hlong h70 hdd hpnl]
          exact updatedHighest_le p s.price
        · rw [decideTrade_hold s p hlong h70 hdd hpnl]
          exact updatedHighest_le p s.price
  · rw [if_neg hr]

lemma portfolioInv_run (l : List Signals) (p : Portfolio) (h : PortfolioInv p)
    (hl : ∀ s ∈ l, 0 < s.price) : PortfolioInv (runCycles l p) := by
  induction l generalizing p with
  | nil => exact h
  | cons s t ih =>
    exact ih (process_market_update s p).portfolio
      (portfolioInv_step s p (hl s (List.mem_cons_self s t)) h)
      (fun x hx => hl x (List.mem_cons_of_mem s hx))

/-- C4: starting from the initial portfolio, after any sequence of decision
cycles at positive prices the portfolio satisfies the invariant — positive
cash (hence nonnegative balances), in_position equivalent to a positive
asset balance, and, while in position, a positive entry price bounded by the
high-water mark; moreover, from any invariant-satisfying in-position state
one further cycle never decreases the high-water mark. -/
theorem c4_invariants (l : List Signals) (hl : ∀ s ∈ l, 0 < s.price) :
    PortfolioInv (runCycles l initialPortfolio) ∧
    (∀ s p, 0 < s.price → PortfolioInv p → p.in_position = true →
      p.highest_price ≤ (process_market_update s p).portfolio.highest_price) :=
  ⟨portfolioInv_run l initialPortfolio portfolioInv_initial hl,
   fun s p _ _ hlong => highest_mono_step s p hlong⟩

/-- Concrete ready snapshot with positive price for the C4 witness. -/
def c4sig : Signals := ⟨true, 1, 50, 0, 0, 0, 0⟩

/-- C4, witness: the invariant holds after one concrete cycle. -/
theorem c4_witness : PortfolioInv (runCycles [c4sig] initialPortfolio) :=
  (c4_invariants [c4sig]
    (fun s hs => by
      rw [List.mem_singleton] at hs
      rw [hs]
      norm_num [c4sig])).1

/-! ### C5 — warmup readiness suppresses trading -/

lemma isEmpty_eq_false_of_ne_nil {α : Type} (l : List α) (h : l ≠ []) :
    l.isEmpty = false := by
  cases l with
  | nil => exact absurd rfl h
  | cons a t => rfl

/-- C5: on a window of fewer than 200 candles analyze reports not-ready
(None on an empty window, otherwise a snapshot with ready = false), and a
not-ready snapshot makes the decision cycle leave the portfolio untouched
and emit no trade. -/
theorem c5_warmup_suppresses_trading (df : DF) (hlen : df.rows.length < 200)
    (s : Signals) (p : Portfolio) (hs : s.ready = false) :
    (df.analyze.2 = none ∨ ∀ s2, df.analyze.2 = some s2 → s2.ready = false) ∧
    (process_market_update s p).portfolio = p ∧
    (process_market_update s p).trades = [] := by
  refine ⟨?_, ?_, ?_⟩
  · cases hE : df.rows.isEmpty with
    | true =>
      left
      simp [DF.analyze, hE]
    | false =>
      right
      intro s2 h2
      simp only [DF.analyze, hE, Bool.false_eq_true, if_false, Option.some.injEq] at h2
      rw [← h2]
      show decide (200 ≤ df.rows.length) = false
      exact decide_eq_false (by omega)
  · rw [process_portfolio, if_neg (by rw [hs]; exact Bool.false_ne_true)]
  · rw [process_trades, if_neg (by rw [hs]; exact Bool.false_ne_true)]

/-- Concrete not-ready snapshot for the C5 witness. -/
def c5sig : Signals := ⟨false, 1, 50, 0, 0, 0, 0⟩

/-- C5, witness at the empty window and a concrete not-ready snapshot. -/
theorem c5_witness :
    (emptyDF.analyze.2 = none ∨ ∀ s2, emptyDF.analyze.2 = some s2 → s2.ready = false) ∧
    (process_market_update c5sig initialPortfolio).portfolio = initialPortfolio ∧
    (process_market_update c5sig initialPortfolio).trades = [] :=
  c5_warmup_suppresses_trading emptyDF (by simp [emptyDF]) c5sig initialPortfolio rfl

/-! ### C6 — per-indicator neutral defaults below each minimum -/

lemma analyze_defaults (df : DF) (hwf : WF df) (hne : df.rows.isEmpty = false) :
    df.analyze.2 = some df.signalsOf ∧
    (df.rows.length < 14 → df.signalsOf.rsi = 50) ∧
    (df.rows.length < 20 → df.signalsOf.sma_20 = 0) ∧
    (df.rows.length < 200 → df.signalsOf.ema_200 = 0) ∧
    (df.rows.length < 35 → df.signalsOf.macd_h = 0 ∧ df.signalsOf.macd_h_prev = 0) := by
  obtain ⟨hw1, hw2, hw3, hw4⟩ := hwf
  refine ⟨by simp [DF.analyze, hne], ?_, ?_, ?_, ?_⟩
  · intro h
    have hflag : df.has_rsi = false := by
      cases hf : df.has_rsi with
      | false => rfl
      | true => exact absurd (hw1 hf) (by omega)
    have hdec : decide (14 ≤ df.rows.length) = false := decide_eq_false (by omega)
    show (if df.has_rsi || decide (14 ≤ df.rows.length) then _ else 50) = 50
    rw [hflag, hdec]
    rfl
  · intro h
    have hflag : df.has_sma = false := by
      cases hf : df.has_sma with
      | false => rfl
      | true => exact absurd (hw2 hf) (by omega)
    have hdec : decide (20 ≤ df.rows.length) = false := decide_eq_false (by omega)
    show (if df.has_sma || decide (20 ≤ df.rows.length) then _ else 0) = 0
    rw [hflag, hdec]
    rfl
  · intro h
    have hflag : df.has_ema = false := by
      cases hf : df.has_ema with
      | false => rfl
      | true => exact absurd (hw3 hf) (by omega)
    have hdec : decide (200 ≤ df.rows.length) = false := decide_eq_false (by omega)
    show (if df.has_ema || decide (200 ≤ df.rows.length) then _ else 0) = 0
    rw [hflag, hdec]
    rfl
  · intro h
    have hflag : df.has_macd = false := by
      cases hf : df.has_macd with
      | false => rfl
      | true => exact absurd (hw4 hf) (by omega)
    have hdec : decide (35 ≤ df.rows.length) = false := decide_eq_false (by omega)
    constructor
    · show (if df.has_macd || decide (35 ≤ df.rows.length) then _ else 0) = 0
      rw [hflag, hdec]
      rfl
    · show (if df.has_macd || decide (35 ≤ df.rows.length) then _ else 0) = 0
      rw [hflag, hdec]
      rfl

/-- C6: on a non-empty window shorter than a given indicator's minimum
(14 for RSI, 20 for SMA, 200 for EMA, 35 for MACD), analyze still returns a
snapshot and reports that indicator at its neutral default — RSI 50, SMA 0,
EMA 0, and both MACD histogram values 0. -/
theorem c6_neutral_defaults (df : DF) (hwf : WF df) (hne : df.rows ≠ []) :
    ∃ s, df.analyze.2 = some s ∧
      (df.rows.length < 14 → s.rsi = 50) ∧
      (df.rows.length < 20 → s.sma_20 = 0) ∧
      (df.rows.length < 200 → s.ema_200 = 0) ∧
      (df.rows.length < 35 → s.macd_h = 0 ∧ s.macd_h_prev = 0) := by
  obtain ⟨h1, h2, h3, h4, h5⟩ :=
    analyze_defaults df hwf (isEmpty_eq_false_of_ne_nil df.rows hne)
  exact ⟨df.signalsOf, h1, h2, h3, h4, h5⟩

/-- Concrete one-candle window for the C6 witness. -/
def c6df : DF := ⟨[⟨0, 5, 5, 5, 5, 1⟩], false, false, false, false⟩

/-- C6, witness at the one-candle window. -/
theorem c6_witness :
    ∃ s, c6df.analyze.2 = some s ∧
      (c6df.rows.length < 14 → s.rsi = 50) ∧
      (c6df.rows.length < 20 → s.sma_20 = 0) ∧
      (c6df.rows.length < 200 → s.ema_200 = 0) ∧
      (c6df.rows.length < 35 → s.macd_h = 0 ∧ s.macd_h_prev = 0) :=
  c6_neutral_defaults c6df
    ⟨fun h => by simp [c6df] at h, fun h => by simp [c6df] at h,
     fun h => by simp [c6df] at h, fun h => by simp [c6df] at h⟩
    (by simp [c6df])

/-! ### C7 — round trip at one price restores cash exactly -/

/-- C7: from any flat portfolio, a cycle that buys at a positive price
followed by a cycle that sells at the same price restores cash_balance to
its pre-buy value exactly (the 1 percent sizing residue rejoins the
proceeds) and zeroes the asset balance, in exact arithmetic. -/
theorem c7_round_trip (p : Portfolio) (s1 s2 : Signals)
    (hflat : p.in_position = false) (_hpr : 0 < s1.price)
    (h1r : s1.ready = true)
    (hbuy : s1.price > s1.ema_200 ∧ s1.rsi < 40 ∧ s1.macd_h > s1.macd_h_prev)
    (h2r : s2.ready = true) (hpeq : s2.price = s1.price) (h2rsi : s2.rsi > 70) :
    (process_market_update s2 (process_market_update s1 p).portfolio).portfolio.usd_balance
      = p.usd_balance ∧
    (process_market_update s2 (process_market_update s1 p).portfolio).portfolio.btc_balance
      = 0 := by
  rw [process_portfolio s1 p, if_pos h1r, decideTrade_buy s1 p hflat hbuy.1 hbuy.2.1 hbuy.2.2]
  rw [process_portfolio s2 _, if_pos h2r, decideTrade_sell_rsi s2 _ rfl h2rsi]
  constructor
  · show p.usd_balance - p.usd_balance * (99 / 100) / s1.price * s1.price +
      p.usd_balance * (99 / 100) / s1.price * s2.price = p.usd_balance
    rw [hpeq]
    ring
  · rfl

/-- Concrete buy snapshot for the C7 witness: price 4, RSI 30, rising
histogram, EMA 2. -/
def c7sig1 : Signals := ⟨true, 4, 30, 0, 2, 2, 1⟩

/-- Concrete sell snapshot for the C7 witness: same price 4, RSI 80. -/
def c7sig2 : Signals := ⟨true, 4, 80, 0, 0, 0, 0⟩

/-- C7, witness at the initial portfolio and the two snapshots above. -/
theorem c7_witness :
    (process_market_update c7sig2
        (process_market_update c7sig1 initialPortfolio).portfolio).portfolio.usd_balance
      = initialPortfolio.usd_balance ∧
    (process_market_update c7sig2
        (process_market_update c7sig1 initialPortfolio).portfolio).portfolio.btc_balance
      = 0 :=
  c7_round_trip initialPortfolio c7sig1 c7sig2 rfl (by norm_num [c7sig1]) rfl
    (by norm_num [c7sig1]) rfl rfl (by norm_num [c7sig2])

/-! ### C8 — analyze is idempotent on the engine state -/

/-- C8: calling analyze twice without an intervening update yields the same
reading.  The first call does mutate the engine state (it appends indicator
columns to the DataFrame), but the columns are recomputed from the unchanged
closes, so the repeated snapshot — ready flag, price, RSI, SMA, EMA and both
MACD histogram values — is identical. -/
theorem c8_analyze_idempotent (df : DF) : (df.analyze.1).analyze.2 = df.analyze.2 := by
  cases hE : df.rows.isEmpty with
  | true => simp [DF.analyze, hE]
  | false =>
    simp [DF.analyze, hE, DF.refreshFlags, DF.signalsOf, Bool.or_assoc, Bool.or_self]

/-! ### C9 — SELL trade rows record zero quantity and zero balance -/

/-- C9: every Trade row a cycle appends records, for a SELL, quantity 0 and
btc_balance 0 — the quantity actually sold is never stored, because the
portfolio is zeroed before the row is built; a BUY row stores the post-buy
asset balance as its quantity, which is positive whenever cash and price
are. -/
theorem c9_sell_row_zeroed (s : Signals) (p : Portfolio) (t : Trade)
    (ht : t ∈ (process_market_update s p).trades) :
    (t.side = "SELL" → t.quantity = 0 ∧ t.btc_balance = 0) ∧
    (t.side = "BUY" → t.quantity = (process_market_update s p).portfolio.btc_balance ∧
      (0 < p.usd_balance → 0 < s.price → 0 < t.quantity)) := by
  rw [process_trades] at ht
  rw [process_portfolio]
  by_cases hr : s.ready = true
  · rw [if_pos hr] at ht
    rw [if_pos hr]
    cases hpos : p.in_position with
    | false =>
      by_cases hc : s.price > s.ema_200 ∧ s.rsi < 40 ∧ s.macd_h > s.macd_h_prev
      · rw [decideTrade_buy s p hpos hc.1 hc.2.1 hc.2.2] at ht
        rw [List.mem_singleton] at ht
        rw [decideTrade_buy s p hpos hc.1 hc.2.1 hc.2.2]
        subst ht
        constructor
        · intro h
          simp at h
        · intro _
          exact ⟨rfl, fun hu hp => div_pos (mul_pos hu (by norm_num)) hp⟩
      · rw [decideTrade_noBuy s p hpos hc] at ht
        exact absurd ht (List.not_mem_nil t)
    | true =>
      by_cases h70 : s.rsi > 70
      · rw [decideTrade_sell_rsi s p hpos h70] at ht
        rw [List.mem_singleton] at ht
        subst ht
        exact ⟨fun _ => ⟨rfl, rfl⟩, fun h => by simp at h⟩
      · by_cases hdd : (updatedHighest p s.price - s.price) / updatedHighest p s.price > 3 / 200
        · rw [decideTrade_sell_trailing s p hpos h70 hdd] at ht
          rw [List.mem_singleton] at ht
          subst ht
          exact ⟨fun _ => ⟨rfl, rfl⟩, fun h => by simp at h⟩
        · by_cases hpnl : (s.price - p.entry_price) / p.entry_price < -(1 / 50)
          · rw [decideTrade_sell_stop s p hpos h70 hdd hpnl] at ht
            rw [List.mem_singleton] at ht
            subst ht
            exact ⟨fun _ => ⟨rfl, rfl⟩, fun h => by simp at h⟩
          · rw [decideTrade_hold s p hpos h70 hdd hpnl] at ht
            exact absurd ht (List.not_mem_nil t)
  · rw [if_neg hr] at ht
    exact absurd ht (List.not_mem_nil t)

/-- Concrete overbought snapshot for the C9 witness: price 100, RSI 80. -/
def c9sig : Signals := ⟨true, 100, 80, 0, 0, 0, 0⟩

/-- Concrete LONG portfolio for the C9 witness. -/
def c9port : Portfolio := ⟨100, 1, true, 100, 100⟩

/-- The SELL row the C9 witness cycle appends. -/
def c9trade : Trade := ⟨"BTC/USD", "SELL", 100, 0, 200, 0, "RSI Overbought"⟩

/-- C9, witness at the concrete SELL cycle above. -/
theorem c9_witness :
    (c9trade.side = "SELL" → c9trade.quantity = 0 ∧ c9trade.btc_balance = 0) ∧
    (c9trade.side = "BUY" →
      c9trade.quantity = (process_market_update c9sig c9port).portfolio.btc_balance ∧
      (0 < c9port.usd_balance → 0 < c9sig.price → 0 < c9trade.quantity)) :=
  c9_sell_row_zeroed c9sig c9port c9trade
    (by
      have h70 : c9sig.rsi > 70 := by norm_num [c9sig]
      have hr : c9sig.ready = true := rfl
      rw [process_trades, if_pos hr, decideTrade_sell_rsi c9sig c9port rfl h70]
      rw [List.mem_singleton]
      show c9trade = ⟨"BTC/USD", "SELL", c9sig.price, 0,
        c9port.usd_balance + c9port.btc_balance * c9sig.price, 0, "RSI Overbought"⟩
      norm_num [c9trade, c9sig, c9port])

/-! ### C10 — every processed candle logs one price row and one indicator row -/

lemma signalsOf_ready (df : DF) : df.signalsOf.ready = decide (200 ≤ df.rows.length) :=
  rfl

lemma update_rows_length (df : DF) (c : Candle) : (df.update c).rows.length =
    (df.rows.length + 1) - ((df.rows.length + 1) - 300) := by
  simp [DF.update]

lemma update_has_rsi (df : DF) (c : Candle) : (df.update c).has_rsi = df.has_rsi := by
  simp [DF.update]

lemma update_has_sma (df : DF) (c : Candle) : (df.update c).has_sma = df.has_sma := by
  simp [DF.update]

lemma update_has_ema (df : DF) (c : Candle) : (df.update c).has_ema = df.has_ema := by
  simp [DF.update]

lemma update_has_macd (df : DF) (c : Candle) : (df.update c).has_macd = df.has_macd := by
  simp [DF.update]

lemma wf_update (df : DF) (c : Candle) (hwf : WF df) : WF (df.update c) := by
  obtain ⟨h1, h2, h3, h4⟩ := hwf
  have hlen := update_rows_length df c
  refine ⟨fun h => ?_, fun h => ?_, fun h => ?_, fun h => ?_⟩
  · rw [update_has_rsi] at h
    have := h1 h
    omega
  · rw [update_has_sma] at h
    have := h2 h
    omega
  · rw [update_has_ema] at h
    have := h3 h
    omega
  · rw [update_has_macd] at h
    have := h4 h
    omega

lemma update_rows_ne_nil (df : DF) (c : Candle) : (df.update c).rows ≠ [] := by
  apply List.ne_nil_of_length_pos
  have hlen := update_rows_length df c
  omega

/-- C10, amended: processing a closed candle through update and analyze on a
well-formed engine state always yields a snapshot, and the decision cycle
run on it inserts exactly one price row and exactly one indicator row even
when the engine is not ready; the persisted indicator row carries the
snapshot values, which equal the neutral defaults only below each
indicator's own minimum — RSI 50 only under 14 candles, SMA 0 only under 20,
and EMA 0 throughout warmup (under 200) — rather than the defaults holding
throughout warmup. -/
theorem c10_every_cycle_logs (df : DF) (c : Candle) (p : Portfolio) (hwf : WF df) :
    ∃ s, (df.update c).analyze.2 = some s ∧
      (process_market_update s p).priceLogs = [s.price] ∧
      (process_market_update s p).indLogs = [⟨s.rsi, s.sma_20, s.ema_200⟩] ∧
      ((df.update c).rows.length < 14 → s.rsi = 50) ∧
      ((df.update c).rows.length < 20 → s.sma_20 = 0) ∧
      (s.ready = false → s.ema_200 = 0) := by
  obtain ⟨h1, h2, h3, h4, h5⟩ :=
    analyze_defaults (df.update c) (wf_update df c hwf)
      (isEmpty_eq_false_of_ne_nil _ (update_rows_ne_nil df c))
  refine ⟨(df.update c).signalsOf, h1, rfl, rfl, h2, h3, ?_⟩
  intro hrdy
  apply h4
  rw [signalsOf_ready] at hrdy
  have := of_decide_eq_false hrdy
  omega

/-- Concrete candle for the C10 witness. -/
def c10cand : Candle := ⟨0, 1, 1, 1, 1, 1⟩

/-- C10, witness: one cycle on the empty engine state. -/
theorem c10_witness :
    ∃ s, (emptyDF.update c10cand).analyze.2 = some s ∧
      (process_market_update s initialPortfolio).priceLogs = [s.price] ∧
      (process_market_update s initialPortfolio).indLogs = [⟨s.rsi, s.sma_20, s.ema_200⟩] ∧
      ((emptyDF.update c10cand).rows.length < 14 → s.rsi = 50) ∧
      ((emptyDF.update c10cand).rows.length < 20 → s.sma_20 = 0) ∧
      (s.ready = false → s.ema_200 = 0) :=
  c10_every_cycle_logs emptyDF c10cand initialPortfolio
    ⟨fun h => by simp [emptyDF] at h, fun h => by simp [emptyDF] at h,
     fun h => by simp [emptyDF] at h, fun h => by simp [emptyDF] at h⟩

/-- Nineteen-candle engine state (closes 1..19) for the C10 counterexample. -/
def c10prev : DF :=
  ⟨[⟨0, 1, 1, 1, 1, 1⟩, ⟨1, 2, 2, 2, 2, 1⟩, ⟨2, 3, 3, 3, 3, 1⟩, ⟨3, 4, 4, 4, 4, 1⟩, ⟨4, 5, 5, 5, 5, 1⟩, ⟨5, 6, 6, 6, 6, 1⟩, ⟨6, 7, 7, 7, 7, 1⟩, ⟨7, 8, 8, 8, 8, 1⟩, ⟨8, 9, 9, 9, 9, 1⟩, ⟨9, 10, 10, 10, 10, 1⟩, ⟨10, 11, 11, 11, 11, 1⟩, ⟨11, 12, 12, 12, 12, 1⟩, ⟨12, 13, 13, 13, 13, 1⟩, ⟨13, 14, 14, 14, 14, 1⟩, ⟨14, 15, 15, 15, 15, 1⟩, ⟨15, 16, 16, 16, 16, 1⟩, ⟨16, 17, 17, 17, 17, 1⟩, ⟨17, 18, 18, 18, 18, 1⟩, ⟨18, 19, 19, 19, 19, 1⟩],
   false, false, false, false⟩

/-- The twentieth candle (close 20) processed in the C10 counterexample. -/
def c10cand2 : Candle := ⟨19, 20, 20, 20, 20, 1⟩

/-- The engine state after processing the twentieth candle. -/
def c10df : DF := c10prev.update c10cand2

/-- The snapshot analyze returns on that window: not ready, RSI 100
(every delta is a gain), SMA 10.5, EMA and MACD at their absent-column
defaults. -/
def c10sig : Signals := ⟨false, 20, 100, 21 / 2, 0, 0, 0⟩

/-- C10, counterexample: a processed candle giving a 20-candle window is
still warmup (not ready), yet the persisted indicator row carries RSI 100
and SMA 10.5 — not the neutral defaults rsi 50 and sma_20 0 that the claim
says warmup rows contain. -/
theorem c10_counterexample :
    c10df.analyze.2 = some c10sig ∧ c10sig.ready = false ∧
    (process_market_update c10sig initialPortfolio).indLogs = [⟨100, 21 / 2, 0⟩] ∧
    (100 : ℚ) ≠ 50 ∧ (21 / 2 : ℚ) ≠ 0 := by
  refine ⟨?_, rfl, rfl, by norm_num, by norm_num⟩
  norm_num [c10df, c10prev, c10cand2, c10sig, DF.update, DF.analyze, DF.refreshFlags,
    DF.signalsOf, rsiLast, deltas, wilderSmooth, smaLast, Signals.mk.injEq]
